import Mathlib

/-!
Access-control dashboard (`src/web/app.js`): embedding and verified properties.

The browser script is embedded as pure functions over explicit state.

* JavaScript Numbers are IEEE-754 binary64.  A finite Number is modelled by the
  rational it denotes, and every arithmetic operator rounds its exact result
  to the nearest binary64 value, ties to even (`JSNumber.fl`), with gradual
  underflow.  Overflow to `Infinity` is outside the model: the quantities that
  the properties below compute stay far below the largest finite Number.
* The DOM is modelled by the fields the script reads and writes.
* The browser services that the script calls but does not define (date parsing
  and locale formatting, timers, network) are parameters or explicit state.
-/

namespace JSNumber

/-- Helper for `natLog2`: halve `n` until it is below 2, counting the steps. -/
def log2Fuel : Nat → Nat → Nat
  | 0, _ => 0
  | fuel + 1, n => if n < 2 then 0 else log2Fuel fuel (n / 2) + 1

/-- Floor of the binary logarithm of a natural number (0 at 0). -/
def natLog2 (n : Nat) : Nat := log2Fuel n n

/-- Floor of the binary logarithm of `|q|` for a nonzero rational `q`. -/
def ilog2 (q : ℚ) : ℤ :=
  let k : ℤ := (natLog2 q.num.natAbs : ℤ) - (natLog2 q.den : ℤ)
  if (2 : ℚ) ^ k ≤ |q| then k else k - 1

/-- Nearest integer, ties to the even neighbour. -/
def roundHalfEven (q : ℚ) : ℤ :=
  let f := ⌊q⌋
  let r := q - f
  if r < 1 / 2 then f
  else if 1 / 2 < r then f + 1
  else if f % 2 = 0 then f else f + 1

/-- Exponent of the unit in the last place of the binary64 format at `q`:
53 significant bits, smallest exponent `-1074` (subnormal range). -/
def ulpExp (q : ℚ) : ℤ := max (ilog2 q - 52) (-1074)

/-- Rounding of an exact real result to binary64 (round to nearest, ties to
even), the rounding every JavaScript arithmetic operator performs. -/
def fl (q : ℚ) : ℚ :=
  if q = 0 then 0
  else (roundHalfEven (q / (2 : ℚ) ^ ulpExp q) : ℚ) * (2 : ℚ) ^ ulpExp q

/-- JavaScript `a / b` on finite Numbers with `b ≠ 0`. -/
def div (a b : ℚ) : ℚ := fl (a / b)

/-- JavaScript `a * b` on finite Numbers. -/
def mul (a b : ℚ) : ℚ := fl (a * b)

/-- JavaScript `a - b` on finite Numbers. -/
def sub (a b : ℚ) : ℚ := fl (a - b)

/-- JavaScript `a + b` on finite Numbers. -/
def add (a b : ℚ) : ℚ := fl (a + b)

end JSNumber

namespace Math

/-- `Math.round`: the integer closest to `x`, a tie going towards `+∞`. -/
def round (x : ℚ) : ℤ := ⌊x + 1 / 2⌋

/-- `Math.ceil`. -/
def ceil (x : ℚ) : ℤ := ⌈x⌉

/-- `Math.min` of two integers. -/
def min (a b : ℤ) : ℤ := if a ≤ b then a else b

end Math

namespace Dashboard

/-- One point of `stats.timeseries`. -/
structure TimePoint where
  time : String
  granted : Option ℚ
  denied : Option ℚ
deriving DecidableEq

/-- The `/api/stats` payload.  A field that is absent from the JSON object is
`none`; the script defaults each of them with `|| 0` (or `|| []`). -/
structure StatsSummary where
  total : Option ℚ
  granted : Option ℚ
  denied : Option ℚ
  timeseries : Option (List TimePoint)
deriving DecidableEq

/-- The JavaScript idiom `x || 0` on a Number field: an absent field and the
Number `0` both give `0`. -/
def orZero (x : Option ℚ) : ℚ := x.getD 0

/-- The expression `total > 0 ? Math.round((part / total) * 100) : 0` of
`updateStats` (app.js 428-429). -/
def percentOf (part total : ℚ) : ℤ :=
  if total > 0 then Math.round (JSNumber.mul (JSNumber.div part total) 100) else 0

/-- Text of `#granted-percent` written by `updateStats` (app.js 428, 435). -/
def grantedPercentText (stats : StatsSummary) : String :=
  toString (percentOf (orZero stats.granted) (orZero stats.total)) ++ "%"

/-- Text of `#denied-percent` written by `updateStats` (app.js 429, 436). -/
def deniedPercentText (stats : StatsSummary) : String :=
  toString (percentOf (orZero stats.denied) (orZero stats.total)) ++ "%"

/-- The specification's percentage: the exact value of `part / total * 100`
rounded to the nearest integer, halves rounded up, and 0 when `total = 0`. -/
def specPercent (part total : ℕ) : ℤ :=
  if total = 0 then 0 else ⌊(part : ℚ) / (total : ℚ) * 100 + 1 / 2⌋

/-- One entry of the `/api/logs` payload.  A string field that is absent from
the JSON object is modelled by the empty string and an absent `rssi` by `0`:
the script only tests these fields for truthiness or compares them with
non-empty literals, and the absent and the empty value are both falsy. -/
structure LogEntry where
  time : String
  device_id : String
  uid : String
  result : String
  rssi : ℤ
deriving DecidableEq

/-- One element of `security.alerts`. -/
structure Alert where
  severity : String
  type : String
  message : String
deriving DecidableEq

/-- The `/api/security` payload; `none` (or `""`) is an absent field. -/
structure SecuritySnapshot where
  risk_score : Option ℚ
  risk_level : String
  failure_rate : Option ℚ
  brute_force_uids : Option (List String)
  suspicious_hours_count : Option ℚ
  alerts : Option (List Alert)
deriving DecidableEq

/-- Browser services the script calls but does not define. -/
structure Env where
  /-- The pair `(getDay(), getHours())` of `new Date(iso)` in local time, or
  `none` when the Date is invalid (both getters return `NaN`). -/
  localDate : String → Option (Fin 7 × Fin 24)
  /-- Result of `new Date(iso).toLocaleString('fr-FR', ...)` (app.js 545). -/
  toLocaleString : String → String
  /-- Result of `new Date(iso).toLocaleTimeString('fr-FR', ...)` (app.js 542). -/
  toLocaleTimeString : String → String
  /-- ECMAScript Number-to-String conversion of a Number that is not an integer
  below 10^21 in absolute value. -/
  fractionToString : ℚ → String
  /-- Value of `new Date().toISOString().split('T')[0]` (app.js 528). -/
  today : String

/-- Conversion of a Number to the text written into the page.  An integer
below 10^21 in absolute value is written with its decimal digits; the text of
every other Number (a fraction, or an integer so large that it is written in
exponent form) is left to the environment. -/
def numberText (env : Env) (x : ℚ) : String :=
  if x.den = 1 ∧ x.num.natAbs < 10 ^ 21 then toString x.num else env.fractionToString x

/-! ## Utilities (app.js 534-568) -/

/-- `formatTime(isoString, shortFormat)` (app.js 535-552); a call with one
argument passes `shortFormat = false`.  The `catch` branch is not reachable:
the two locale formatters do not throw for the fixed locale `fr-FR`. -/
def formatTime (env : Env) (isoString : String) (shortFormat : Bool) : String :=
  if isoString = "" then "—"
  else if shortFormat then env.toLocaleTimeString isoString
  else env.toLocaleString isoString

/-- `formatResult(result)` (app.js 554-561). -/
def formatResult (result : String) : String :=
  if result = "GRANTED" then "<span class=\"badge badge-success\">✅ Autorisé</span>"
  else if result = "DENIED" then "<span class=\"badge badge-danger\">⛔ Refusé</span>"
  else "<span class=\"badge\">" ++ (if result = "" then "—" else result) ++ "</span>"

/-! ## Heatmap (app.js 198-250) -/

/-- A `.heatmap-cell` element: its `data-day` and `data-hour` attributes, the
number `n` of its class `heatmap-cell level-n`, and its `title`. -/
structure HeatmapCell where
  day : ℕ
  hour : ℕ
  level : ℤ
  title : String
deriving DecidableEq

/-- The array `days` of `initHeatmap` and `updateHeatmap`. -/
def days : List String := ["Lun", "Mar", "Mer", "Jeu", "Ven", "Sam", "Dim"]

/-- Cells created by `initHeatmap` (app.js 206-220), in document order. -/
def initHeatmap : List HeatmapCell :=
  (List.range 7).flatMap fun day =>
    (List.range 24).map fun hour =>
      { day := day, hour := hour, level := 0,
        title := (days.get? day).getD "undefined" ++ " " ++ toString hour ++ "h: 0" }

/-- Key of the `counts` object.  `some (d, h)` is the string `"d-h"`; `none` is
the string `"NaN-NaN"` that an invalid Date produces. -/
abbrev BucketKey := Option (ℕ × ℕ)

/-- The key computed for one log (app.js 232-235). -/
def bucketKey (env : Env) (log : LogEntry) : BucketKey :=
  match env.localDate log.time with
  | some (weekday, hours) => some ((weekday.val + 6) % 7, hours.val)
  | none => none

/-- The statement `counts[key] = (counts[key] || 0) + 1` (app.js 236) on the
object `counts`, kept as its list of entries in insertion order.  Counts are
natural numbers: an array holds fewer than 2^32 logs, so the Number
additions are exact. -/
def increment (counts : List (BucketKey × ℕ)) (key : BucketKey) : List (BucketKey × ℕ) :=
  match counts.lookup key with
  | some c => counts.map fun e => if e.1 = key then (e.1, c + 1) else e
  | none => counts ++ [(key, 0 + 1)]

/-- The object `counts` after the `logs.forEach` loop (app.js 228-237). -/
def buildCounts (env : Env) (logs : List LogEntry) : List (BucketKey × ℕ) :=
  logs.foldl (fun counts log => increment counts (bucketKey env log)) []

/-- `Math.max(...Object.values(counts), 1)` (app.js 239). -/
def maxCount (counts : List (BucketKey × ℕ)) : ℕ :=
  (counts.map Prod.snd).foldl max 1

/-- `Math.min(5, Math.ceil((count / maxCount) * 5))` (app.js 245). -/
def heatLevel (count maxCount : ℕ) : ℤ :=
  Math.min 5 (Math.ceil (JSNumber.mul (JSNumber.div count maxCount) 5))

/-- Apply `f` to the first element satisfying `p`, as an update of the
element returned by `document.querySelector`. -/
def updateFirst {α : Type} (p : α → Bool) (f : α → α) : List α → List α
  | [] => []
  | x :: xs => if p x then f x :: xs else x :: updateFirst p f xs

/-- Body of the `Object.entries(counts).forEach` callback (app.js 241-249). -/
def paintBucket (maxCount : ℕ) (cells : List HeatmapCell) (entry : BucketKey × ℕ) :
    List HeatmapCell :=
  match entry.1 with
  | none => cells
  | some (day, hour) =>
    updateFirst (fun cell => cell.day = day && cell.hour = hour)
      (fun cell => { cell with
        level := heatLevel entry.2 maxCount
        title := (days.get? day).getD "undefined" ++ " " ++ toString hour ++ "h: "
          ++ toString entry.2 })
      cells

/-- `updateHeatmap(logs)` (app.js 223-250) on the `.heatmap-cell` elements of
the document. -/
def updateHeatmap (env : Env) (logs : List LogEntry) (cells : List HeatmapCell) :
    List HeatmapCell :=
  let counts := buildCounts env logs
  counts.foldl (paintBucket (maxCount counts)) (cells.map fun cell => { cell with level := 0 })

/-- Number of logs of the list that fall into the bucket `key`. -/
def bucketCount (env : Env) (logs : List LogEntry) (key : BucketKey) : ℕ :=
  (logs.filter fun log => bucketKey env log = key).length

/-- The stroke offset `circumference - (riskScore / 100) * circumference` with
`circumference = 314` (app.js 302-303). -/
def gaugeOffset (riskScore : ℚ) : ℚ :=
  JSNumber.sub 314 (JSNumber.mul (JSNumber.div riskScore 100) 314)

/-- The stroke colour chosen by the `if` chain of app.js 308-316. -/
def gaugeColor (riskScore : ℚ) : String :=
  if riskScore ≥ 70 then "#ef4444"
  else if riskScore ≥ 50 then "#f59e0b"
  else if riskScore ≥ 25 then "#eab308"
  else "#10b981"

/-- The `#risk-gauge-fill` element: the three style properties the script sets. -/
structure GaugeFill where
  strokeDasharray : String
  strokeDashoffset : String
  stroke : String
deriving DecidableEq

/-- The class added to `#risk-badge` (app.js 330-333). -/
def riskBadgeClass (riskLevel : String) : String :=
  if riskLevel = "CRITICAL" then "critical"
  else if riskLevel = "HIGH" then "high"
  else if riskLevel = "MEDIUM" then "medium"
  else "low"

/-- The text of `#risk-level-text` (app.js 339-345). -/
def riskLevelName (riskLevel : String) : String :=
  if riskLevel = "CRITICAL" then "Niveau: Critique ⚠️"
  else if riskLevel = "HIGH" then "Niveau: Élevé"
  else if riskLevel = "MEDIUM" then "Niveau: Moyen"
  else if riskLevel = "LOW" then "Niveau: Faible ✅"
  else "Niveau: " ++ riskLevel

/-- The `#failure-rate` element: its text, whether it carries the class
`warning`, and whether its parent element does. -/
structure FailureRateEl where
  textContent : String
  warning : Bool
  parentWarning : Bool
deriving DecidableEq

/-- The single entry written into `#alerts-list` when there is no alert
(app.js 379-384). -/
def secureEntry : String :=
  "\n        <div class=\"alert-item success\">\n          <span class=\"alert-icon\">✅</span>\n          <span class=\"alert-text\">Aucune alerte - Système sécurisé</span>\n        </div>\n      "

/-- The CSS class of an alert (app.js 387-388). -/
def severityClass (alert : Alert) : String :=
  if alert.severity = "HIGH" then "danger"
  else if alert.severity = "MEDIUM" then "warning" else "info"

/-- The icon of an alert (app.js 389-390). -/
def severityIcon (alert : Alert) : String :=
  if alert.severity = "HIGH" then "🚨"
  else if alert.severity = "MEDIUM" then "⚠️" else "ℹ️"

/-- `alert.type.replace(/_/g, ' ')`. -/
def underscoresToSpaces (s : String) : String :=
  s.map fun c => if c = '_' then ' ' else c

/-- The entry that the `alerts.map` callback returns for one alert
(app.js 386-399). -/
def alertEntry (alert : Alert) : String :=
  "\n          <div class=\"alert-item " ++ severityClass alert
    ++ "\">\n            <span class=\"alert-icon\">" ++ severityIcon alert
    ++ "</span>\n            <div class=\"alert-content\">\n              <span class=\"alert-text\">"
    ++ alert.message
    ++ "</span>\n              <span class=\"alert-type\">" ++ underscoresToSpaces alert.type
    ++ "</span>\n            </div>\n          </div>\n        "

/-- The entries of `#alerts-list` (app.js 376-401): `innerHTML` is set to their
concatenation.  Each entry is the markup of one `div.alert-item` element; how
the browser parses a message or type that itself contains markup is outside
the model. -/
def alertEntries (alerts : List Alert) : List String :=
  if alerts.length = 0 then [secureEntry] else alerts.map alertEntry

/-! ## Logs table and CSV export (app.js 405-420, 481-532) -/

/-- `log.x || '—'`. -/
def orDash (s : String) : String := if s = "" then "—" else s

/-- The text of the signal cell, with the placeholder used when `rssi` is falsy. -/
def rssiText (log : LogEntry) (placeholder : String) : String :=
  if log.rssi ≠ 0 then toString log.rssi ++ " dBm" else placeholder

/-- The table row of one log (app.js 491-499). -/
def logRow (env : Env) (log : LogEntry) : String :=
  "\n    <tr>\n      <td>" ++ formatTime env log.time false
    ++ "</td>\n      <td><code>" ++ orDash log.device_id
    ++ "</code></td>\n      <td style=\"font-family: monospace;\">" ++ orDash log.uid
    ++ "</td>\n      <td>" ++ formatResult log.result
    ++ "</td>\n      <td>" ++ rssiText log "—"
    ++ "</td>\n    </tr>\n  "

/-- The rows written into `#logs-body` by `updateLogsTable(logs)`
(app.js 486-499): `innerHTML` is set to their concatenation. -/
def logsTableRows (env : Env) (logs : List LogEntry) : List String :=
  if logs.length = 0 then
    ["<tr><td colspan=\"5\" style=\"text-align: center; padding: 30px;\">Aucune donnée</td></tr>"]
  else logs.map (logRow env)

/-- `applyClientFilters(logs)` (app.js 411-420) for the values of the
`#filter-device` and `#filter-result` controls (`""` when absent or unset). -/
def applyClientFilters (deviceFilter resultFilter : String) (logs : List LogEntry) :
    List LogEntry :=
  logs.filter fun log =>
    if deviceFilter ≠ "" ∧ log.device_id ≠ deviceFilter then false
    else if resultFilter ≠ "" ∧ log.result ≠ resultFilter then false
    else true

/-- The array `headers` of `exportCSV` (app.js 509). -/
def csvHeaders : List String := ["Horodatage", "Appareil", "UID", "Résultat", "WiFi"]

/-- The cells of one CSV row (app.js 510-516). -/
def csvRow (env : Env) (log : LogEntry) : List String :=
  [formatTime env log.time false, log.device_id, log.uid,
   if log.result = "GRANTED" then "Autorisé" else "Refusé",
   rssiText log ""]

/-- `Array.prototype.join(sep)` on strings. -/
def join (sep : String) : List String → String
  | [] => ""
  | [x] => x
  | x :: y :: rest => x ++ sep ++ join sep (y :: rest)

/-- `cell => "\"" + cell + "\""`: the cell between double quotes (app.js 520). -/
def quoteCell (cell : String) : String := "\"" ++ cell ++ "\""

/-- The lines of the CSV file: the header line, then one line per log. -/
def csvLines (env : Env) (logs : List LogEntry) : List String :=
  join "," csvHeaders :: logs.map fun log => join "," ((csvRow env log).map quoteCell)

/-- The string `csvContent` of `exportCSV` (app.js 518-521). -/
def csvContent (env : Env) (logs : List LogEntry) : String :=
  join "\n" (csvLines env logs)

/-! ## Naive re-parsing of the CSV text

The specification's reader of the exported file: the text is cut into lines at
line feeds, a line into fields at commas, and the enclosing quotes of a field
are removed.  It is the counterpart of `exportCSV` in the round-trip claim and
is not part of the script. -/

/-- Cut a list of characters at every occurrence of `sep`, like
`String.prototype.split` with a one-character separator. -/
def splitChars (sep : Char) : List Char → List (List Char)
  | [] => [[]]
  | ch :: rest =>
    if ch = sep then [] :: splitChars sep rest
    else
      match splitChars sep rest with
      | [] => [[ch]]
      | field :: fields => (ch :: field) :: fields

/-- White space and line terminators of ECMAScript, the characters that
`String.prototype.trim` and `parseInt` skip. -/
def isWhiteSpace (c : Char) : Bool :=
  c.toNat ∈ [0x09, 0x0A, 0x0B, 0x0C, 0x0D, 0x20, 0xA0, 0x1680, 0x2000, 0x2001, 0x2002,
    0x2003, 0x2004, 0x2005, 0x2006, 0x2007, 0x2008, 0x2009, 0x200A, 0x2028, 0x2029,
    0x202F, 0x205F, 0x3000, 0xFEFF]

/-- `String.prototype.trim`. -/
def trim (s : String) : String :=
  String.mk ((s.data.dropWhile isWhiteSpace).reverse.dropWhile isWhiteSpace).reverse

/-- Value of a digit in the given radix, if the character is one. -/
def digitValue (radix : ℕ) (c : Char) : Option ℕ :=
  let v :=
    if c.isDigit then c.toNat - 48
    else if 'a'.toNat ≤ c.toNat ∧ c.toNat ≤ 'z'.toNat then c.toNat - 87
    else if 'A'.toNat ≤ c.toNat ∧ c.toNat ≤ 'Z'.toNat then c.toNat - 55
    else radix
  if v < radix then some v else none

/-- The longest prefix of digits of the radix, as a number; `none` if empty. -/
def parseDigits (radix : ℕ) (cs : List Char) : Option ℕ :=
  match cs.map (digitValue radix) |>.takeWhile Option.isSome |>.map (Option.getD · 0) with
  | [] => none
  | ds => some (ds.foldl (fun acc d => acc * radix + d) 0)

/-- `parseInt(string)` with no radix argument; `none` is `NaN`.  The result is
the Number nearest to the integer that the digits denote (an integer above
2^53 need not be a Number).  A text that denotes an integer beyond the range
of the finite Numbers is outside the model. -/
def parseInt (s : String) : Option ℚ :=
  let cs := s.data.dropWhile isWhiteSpace
  let signed : Bool × List Char :=
    match cs with
    | '-' :: rest => (true, rest)
    | '+' :: rest => (false, rest)
    | _ => (false, cs)
  let magnitude : Option ℕ :=
    match signed.2 with
    | '0' :: 'x' :: rest => parseDigits 16 rest
    | '0' :: 'X' :: rest => parseDigits 16 rest
    | rest => parseDigits 10 rest
  magnitude.map fun m => JSNumber.fl (if signed.1 then - (m : ℚ) else (m : ℚ))

/-! ## Page state -/

/-- The function a timer calls.  The closure that `animateNumber` passes to
`setInterval` is kept with the variables it captures. -/
inductive Callback where
  | loadData
  | animate (elementId : String) (targetValue stepValue current : ℚ) (step : ℕ)
deriving DecidableEq

/-- An active timer created by `setInterval` or `setTimeout`. -/
structure Timer where
  id : ℕ
  delay : ℚ
  repeating : Bool
  callback : Callback
deriving DecidableEq

/-- The Chart.js instance held in `activityChart`: its labels, its two data
sets and the two theme colours. -/
structure Chart where
  labels : List String
  granted : List ℚ
  denied : List ℚ
  textColor : String
  gridColor : String
deriving DecidableEq

/-- Outcome of one of the three requests of `loadData`. -/
abbrev Settled (α : Type) := Except String α

/-- Outcomes of the three requests joined by `Promise.all` (app.js 262-266). -/
structure Responses where
  stats : Settled StatsSummary
  logs : Settled (List LogEntry)
  security : Settled (Option SecuritySnapshot)

/-- The script's global variables, the browser state it uses and the page
elements it reads and writes.  An element that the script looks up behind an
`if (element)` guard is an `Option`: `none` when the page has no such element;
an element that the script uses without a guard is taken to exist. -/
structure State where
  /-- `sessionStorage.getItem('isLoggedIn')`. -/
  session : Option String
  /-- `localStorage.getItem('theme')`. -/
  savedTheme : Option String
  activityChart : Option Chart
  autoRefreshInterval : Option ℕ
  currentLogs : List LogEntry
  currentStats : Option StatsSummary
  isLoggedIn : Bool
  /-- Active timers of the window, and the identifier the next one receives. -/
  timers : List Timer
  nextTimerId : ℕ
  /-- Calls of `loadData` that await their responses, and the URLs requested. -/
  pending : ℕ
  requests : List String
  consoleErrors : ℕ
  loginUsername : String
  loginPassword : String
  loginError : String
  loginScreenHidden : Bool
  dashboardHidden : Bool
  /-- Attribute `data-theme` of the document element (`""` when not set). -/
  dataTheme : String
  themeIcon : Option String
  hasCanvas : Bool
  heatmapGrid : Option (List HeatmapCell)
  filterRange : String
  filterLimit : String
  filterDevice : String
  filterResult : String
  /-- Class of `#status-indicator` and text of `#status-text`. -/
  statusIndicator : Option String
  statusText : Option String
  /-- Text of the elements that `animateNumber` drives, by element id. -/
  counters : List (String × String)
  grantedPercent : String
  deniedPercent : String
  logsBody : Option (List String)
  doorStatus : String
  lastUpdate : String
  gaugeFill : Option GaugeFill
  /-- Text and class of `#risk-badge`. -/
  riskBadge : Option (String × String)
  riskLevelText : Option String
  failureRate : Option FailureRateEl
  bruteForceCount : Option String
  suspiciousCount : Option String
  alertsList : Option (List String)
  /-- Toasts shown by `showNotification`: message and type. -/
  toasts : List (String × String)
  /-- Files offered for download: name and content. -/
  downloads : List (String × String)

/-! ## Timers, status and notifications -/

/-- `setInterval(callback, delay)`: the new timer receives the identifier
`s.nextTimerId`. -/
def setInterval (callback : Callback) (delay : ℚ) (s : State) : State :=
  { s with
    timers := s.timers ++ [{ id := s.nextTimerId, delay := delay, repeating := true,
                             callback := callback }]
    nextTimerId := s.nextTimerId + 1 }

/-- `setTimeout(callback, delay)`. -/
def setTimeout (callback : Callback) (delay : ℚ) (s : State) : State :=
  { s with
    timers := s.timers ++ [{ id := s.nextTimerId, delay := delay, repeating := false,
                             callback := callback }]
    nextTimerId := s.nextTimerId + 1 }

/-- `clearInterval(id)`. -/
def clearInterval (id : ℕ) (s : State) : State :=
  { s with timers := s.timers.filter fun t => t.id ≠ id }

/-- `updateStatus(status, text)` (app.js 563-568). -/
def updateStatus (status text : String) (s : State) : State :=
  { s with
    statusIndicator := s.statusIndicator.map fun _ => "indicator " ++ status
    statusText := s.statusText.map fun _ => text }

/-- `showNotification(message, type)` (app.js 601-628): the toast is recorded;
the callbacks that fade it in and out and remove it touch nothing else and
are not modelled. -/
def showNotification (message type : String) (s : State) : State :=
  { s with toasts := s.toasts ++ [(message, type)] }

/-- Assignment to `element.textContent` of the element with the given id. -/
def setCounter (elementId text : String) (s : State) : State :=
  { s with counters := s.counters.map fun e => if e.1 = elementId then (e.1, text) else e }

/-! ## Auto refresh (app.js 630-641) -/

/-- `stopAutoRefresh()` (app.js 636-641); the identifier `0` is falsy. -/
def stopAutoRefresh (s : State) : State :=
  match s.autoRefreshInterval with
  | some id =>
    if id ≠ 0 then { clearInterval id s with autoRefreshInterval := none } else s
  | none => s

/-- `startAutoRefresh()` (app.js 631-634). -/
def startAutoRefresh (s : State) : State :=
  let s1 := stopAutoRefresh s
  { setInterval Callback.loadData 8000 s1 with autoRefreshInterval := some s1.nextTimerId }

/-! ## Statistics (app.js 422-465) -/

/-- `animateNumber(elementId, targetValue)` (app.js 439-465) up to the call of
`setInterval`; the interval callback is `animateTick`. -/
def animateNumber (elementId : String) (targetValue : ℚ) (s : State) : State :=
  match s.counters.lookup elementId with
  | none => s
  | some text =>
    let currentValue : ℚ := (parseInt text).getD 0
    if currentValue = targetValue then s
    else
      let stepValue := JSNumber.div (JSNumber.sub targetValue currentValue) 15
      let stepDuration := JSNumber.div 400 15
      setInterval (Callback.animate elementId targetValue stepValue currentValue 0)
        stepDuration s

/-- One call of the interval callback of `animateNumber` (app.js 454-464) for
the timer `id`. -/
def animateTick (env : Env) (id : ℕ) (elementId : String)
    (targetValue stepValue current : ℚ) (step : ℕ) (s : State) : State :=
  let step1 := step + 1
  let current1 := JSNumber.add current stepValue
  if step1 ≥ 15 then
    clearInterval id (setCounter elementId (numberText env targetValue) s)
  else
    let s1 := setCounter elementId (numberText env ((Math.round current1 : ℤ) : ℚ)) s
    { s1 with
      timers := s1.timers.map fun t =>
        if t.id = id then
          { t with callback := Callback.animate elementId targetValue stepValue current1 step1 }
        else t }

/-- `updateStats(stats)` (app.js 423-437). -/
def updateStats (stats : StatsSummary) (s : State) : State :=
  let total := orZero stats.total
  let granted := orZero stats.granted
  let denied := orZero stats.denied
  let s1 := animateNumber "total-count" total s
  let s2 := animateNumber "granted-count" granted s1
  let s3 := animateNumber "denied-count" denied s2
  { s3 with
    grantedPercent := grantedPercentText stats
    deniedPercent := deniedPercentText stats }

/-! ## Chart (app.js 114-196, 467-479) -/

/-- `initChart()` (app.js 115-196). -/
def initChart (s : State) : State :=
  if ¬ s.hasCanvas then s
  else
    let theme := if s.dataTheme = "" then "dark" else s.dataTheme
    { s with
      activityChart := some
        { labels := []
          granted := []
          denied := []
          textColor := if theme = "dark" then "#9ca3af" else "#64748b"
          gridColor :=
            if theme = "dark" then "rgba(255,255,255,0.06)" else "rgba(0,0,0,0.06)" } }

/-- `updateChart(timeseries)` (app.js 468-479). -/
def updateChart (env : Env) (timeseries : List TimePoint) (s : State) : State :=
  { s with
    activityChart := s.activityChart.map fun chart =>
      { chart with
        labels := timeseries.map fun t => formatTime env t.time true
        granted := timeseries.map fun t => orZero t.granted
        denied := timeseries.map fun t => orZero t.denied } }

/-! ## Security dashboard (app.js 290-403) -/

/-- `updateSecurityDashboard(security)` (app.js 291-403); `none` is a falsy
`security`. -/
def updateSecurityDashboard (env : Env) (security : Option SecuritySnapshot) (s : State) :
    State :=
  match security with
  | none => s
  | some security =>
    let riskScore := orZero security.risk_score
    let riskLevel := if security.risk_level = "" then "LOW" else security.risk_level
    let failureRate := orZero security.failure_rate
    let s1 : State :=
      { s with
        gaugeFill := s.gaugeFill.map fun _ =>
          { strokeDasharray := "314"
            strokeDashoffset := numberText env (gaugeOffset riskScore)
            stroke := gaugeColor riskScore } }
    let s2 := animateNumber "risk-score" riskScore s1
    { s2 with
      riskBadge := s2.riskBadge.map fun _ => (riskLevel, "risk-badge " ++ riskBadgeClass riskLevel)
      riskLevelText := s2.riskLevelText.map fun _ => riskLevelName riskLevel
      failureRate := s2.failureRate.map fun _ =>
        { textContent := numberText env failureRate ++ "%"
          warning := decide (failureRate > 30)
          parentWarning := decide (failureRate > 30) }
      bruteForceCount := s2.bruteForceCount.map fun _ =>
        toString ((security.brute_force_uids.getD []).length)
      suspiciousCount := s2.suspiciousCount.map fun _ =>
        numberText env (orZero security.suspicious_hours_count)
      alertsList := s2.alertsList.map fun _ => alertEntries (security.alerts.getD []) }

/-! ## Data loading (app.js 252-288) -/

/-- The part of `loadData()` that runs before the `await` (app.js 254-266):
nothing when not logged in, else the status is set and the three requests
are issued. -/
def loadDataBegin (s : State) : State :=
  if ¬ s.isLoggedIn then s
  else
    let s1 := updateStatus "online" "Connecté" s
    let range := if s1.filterRange = "" then "24h" else s1.filterRange
    let limit := if s1.filterLimit = "" then "25" else s1.filterLimit
    { s1 with
      requests := s1.requests ++
        ["/api/stats?range=" ++ range,
         "/api/logs?limit=" ++ limit ++ "&range=" ++ range,
         "/api/security?range=" ++ range]
      pending := s1.pending + 1 }

/-- `updateLogsTable(logs)` (app.js 482-500) on the page: the rows of
`#logs-body`, when the page has this element. -/
def updateLogsTable (env : Env) (logs : List LogEntry) (s : State) : State :=
  { s with logsBody := s.logsBody.map fun _ => logsTableRows env logs }

/-- `updateHeatmap(logs)` (app.js 223-250) on the page: the cells of the grid. -/
def updateHeatmapCells (env : Env) (logs : List LogEntry) (s : State) : State :=
  { s with heatmapGrid := s.heatmapGrid.map (updateHeatmap env logs) }

/-- The block `if (logs.length > 0) { ... }` of `loadData` (app.js 276-281):
door status and last update from the first log. -/
def updateSummary (env : Env) (logs : List LogEntry) (s : State) : State :=
  match logs with
  | latest :: _ =>
    { s with
      doorStatus := if latest.result = "GRANTED" then "Ouverte" else "Fermée"
      lastUpdate := formatTime env latest.time false }
  | [] => s

/-- The part of `loadData()` that runs when the three requests have settled
(app.js 262-287). -/
def loadDataSettle (env : Env) (r : Responses) (s : State) : State :=
  let s0 := { s with pending := s.pending - 1 }
  match r.stats, r.logs, r.security with
  | .ok stats, .ok logs, .ok security =>
    let s1 := { s0 with currentStats := some stats, currentLogs := logs }
    let s2 := updateStats stats s1
    let s3 := updateChart env (stats.timeseries.getD []) s2
    let s4 := updateLogsTable env (applyClientFilters s3.filterDevice s3.filterResult logs) s3
    let s5 := updateHeatmapCells env logs s4
    let s6 := updateSecurityDashboard env security s5
    updateSummary env logs s6
  | _, _, _ =>
    updateStatus "offline" "Déconnecté" { s0 with consoleErrors := s0.consoleErrors + 1 }

/-- A complete run of `loadData()` whose requests settle as `r`, with no other
event in between. -/
def loadData (env : Env) (r : Responses) (s : State) : State :=
  if s.isLoggedIn then loadDataSettle env r (loadDataBegin s) else s

/-! ## Theme management (app.js 72-112) -/

/-- `applyTheme(theme)` with `updateChartTheme(theme)` (app.js 90-112). -/
def applyTheme (theme : String) (s : State) : State :=
  { s with
    dataTheme := theme
    themeIcon := s.themeIcon.map fun _ => if theme = "dark" then "🌙" else "☀️"
    activityChart := s.activityChart.map fun chart =>
      { chart with
        textColor := if theme = "dark" then "#9ca3af" else "#64748b"
        gridColor :=
          if theme = "dark" then "rgba(255,255,255,0.06)" else "rgba(0,0,0,0.06)" } }

/-- `initTheme()` (app.js 73-81). -/
def initTheme (s : State) : State :=
  applyTheme (match s.savedTheme with
    | some theme => if theme = "" then "dark" else theme
    | none => "dark") s

/-- `toggleTheme()` (app.js 83-88). -/
def toggleTheme (s : State) : State :=
  let currentTheme := if s.dataTheme = "" then "dark" else s.dataTheme
  let newTheme := if currentTheme = "dark" then "light" else "dark"
  { applyTheme newTheme s with savedTheme := some newTheme }

/-! ## Authentication (app.js 19-70) -/

/-- The constant `CREDENTIALS` (app.js 4). -/
def CREDENTIALS : String × String := ("admin", "admin")

/-- `showLogin()` (app.js 54-58). -/
def showLogin (s : State) : State :=
  { s with loginScreenHidden := false, dashboardHidden := true, isLoggedIn := false }

/-- `showDashboard()` (app.js 60-70).  The call `loadData()` returns at its
`await`; its continuation is a later event. -/
def showDashboard (s : State) : State :=
  let s1 := { s with loginScreenHidden := true, dashboardHidden := false, isLoggedIn := true }
  let s2 := initChart s1
  let s3 := { s2 with heatmapGrid := s2.heatmapGrid.map fun _ => initHeatmap }
  startAutoRefresh (loadDataBegin s3)

/-- `checkSession()` (app.js 20-27). -/
def checkSession (s : State) : State :=
  if s.session = some "true" then showDashboard s else showLogin s

/-- `handleLogin(event)` (app.js 29-45). -/
def handleLogin (s : State) : State :=
  let username := trim s.loginUsername
  let password := s.loginPassword
  if username = CREDENTIALS.1 ∧ password = CREDENTIALS.2 then
    showNotification "Bienvenue, Admin!" "success"
      (showDashboard { s with session := some "true", loginError := "" })
  else
    { s with loginError := "❌ Identifiants incorrects", loginPassword := "" }

/-- `handleLogout()` (app.js 47-52). -/
def handleLogout (s : State) : State :=
  showNotification "Déconnexion réussie" "info"
    (showLogin (stopAutoRefresh { s with session := none }))

/-! ## Filters, export and commands (app.js 405-409, 502-532, 570-598) -/

/-- `applyFilters()` (app.js 406-409). -/
def applyFilters (s : State) : State :=
  showNotification "Filtres appliqués" "success" (loadDataBegin s)

/-- `exportCSV()` (app.js 503-532). -/
def exportCSV (env : Env) (s : State) : State :=
  if s.currentLogs.length = 0 then showNotification "Aucune donnée" "error" s
  else
    showNotification "CSV téléchargé" "success"
      { s with
        downloads := s.downloads ++
          [("access_logs_" ++ env.today ++ ".csv", "\uFEFF" ++ csvContent env s.currentLogs)] }

/-- `getCommandName(cmd)` (app.js 590-598). -/
def getCommandName (cmd : String) : String :=
  if cmd = "open" then "Ouvrir la porte"
  else if cmd = "lockdown_on" then "Activer Lockdown"
  else if cmd = "lockdown_off" then "Désactiver Lockdown"
  else if cmd = "buzzer_test" then "Tester buzzer"
  else cmd

/-- How the request of `sendCommand` ends: a response with `response.ok`, a
response without it, or a rejected `fetch`. -/
inductive CommandOutcome where
  | ok
  | notOk
  | failed
deriving DecidableEq

/-- The part of `sendCommand(command)` that runs once the request has ended
(app.js 579-587). -/
def sendCommandSettle (command : String) (outcome : CommandOutcome) (s : State) : State :=
  match outcome with
  | .ok =>
    setTimeout Callback.loadData 1000
      (showNotification ("Commande: " ++ getCommandName command) "success" s)
  | .notOk => showNotification "Échec" "error" s
  | .failed => showNotification "Erreur connexion" "error" s

/-! ## Events -/

/-- The timer `id` fires: a timeout is removed, then its callback runs. -/
def fireTimer (env : Env) (id : ℕ) (s : State) : State :=
  match s.timers.find? fun t => t.id = id with
  | none => s
  | some t =>
    let s1 := if t.repeating then s else clearInterval id s
    match t.callback with
    | .loadData => loadDataBegin s1
    | .animate elementId targetValue stepValue current step =>
      animateTick env id elementId targetValue stepValue current step s1

/-- What can happen to the page: the handlers the script registers or exposes,
user input, timers firing and requests ending. -/
inductive Event where
  | domContentLoaded
  | typeCredentials (username password : String)
  | setFilters (range limit device result : String)
  | handleLogin
  | handleLogout
  | checkSession
  | showDashboard
  | showLogin
  | startAutoRefresh
  | stopAutoRefresh
  | timer (id : ℕ)
  | settled (r : Responses)
  | applyFilters
  | exportCSV
  | toggleTheme
  | commandSettled (command : String) (outcome : CommandOutcome)

/-- The state after one event. -/
def step (env : Env) (s : State) : Event → State
  | .domContentLoaded => initTheme (checkSession s)
  | .typeCredentials username password =>
    { s with loginUsername := username, loginPassword := password }
  | .setFilters range limit device result =>
    { s with filterRange := range, filterLimit := limit, filterDevice := device,
             filterResult := result }
  | .handleLogin => handleLogin s
  | .handleLogout => handleLogout s
  | .checkSession => checkSession s
  | .showDashboard => showDashboard s
  | .showLogin => showLogin s
  | .startAutoRefresh => startAutoRefresh s
  | .stopAutoRefresh => stopAutoRefresh s
  | .timer id => fireTimer env id s
  | .settled r => if s.pending = 0 then s else loadDataSettle env r s
  | .applyFilters => applyFilters s
  | .exportCSV => exportCSV env s
  | .toggleTheme => toggleTheme s
  | .commandSettled command outcome => sendCommandSettle command outcome s

/-- A page on which every element exists, freshly loaded: used to evaluate
the functions on concrete inputs. -/
def samplePage : State :=
  { session := none, savedTheme := none, activityChart := none, autoRefreshInterval := none
    currentLogs := [], currentStats := none, isLoggedIn := false
    timers := [], nextTimerId := 1, pending := 0, requests := [], consoleErrors := 0
    loginUsername := "", loginPassword := "", loginError := ""
    loginScreenHidden := false, dashboardHidden := true
    dataTheme := "", themeIcon := some "🌙", hasCanvas := true
    heatmapGrid := some initHeatmap
    filterRange := "24h", filterLimit := "25", filterDevice := "", filterResult := ""
    statusIndicator := some "indicator", statusText := some ""
    counters := [("total-count", "0"), ("granted-count", "0"), ("denied-count", "0"),
                 ("risk-score", "0")]
    grantedPercent := "0%", deniedPercent := "0%"
    logsBody := some [], doorStatus := "—", lastUpdate := "—"
    gaugeFill := some { strokeDasharray := "", strokeDashoffset := "", stroke := "" }
    riskBadge := some ("LOW", "risk-badge low"), riskLevelText := some ""
    failureRate := some { textContent := "0%", warning := false, parentWarning := false }
    bruteForceCount := some "0", suspiciousCount := some "0", alertsList := some []
    toasts := [], downloads := [] }

/-- The percentages `n` for which the script displays `n` although the exact
percentage is `n + 1/2`: the exact halves 14.5, 28.5, 56.5 and 57.5. -/
def halvesRoundedDown : List ℕ := [14, 28, 56, 57]

/-- The amended percentage: the specification's percentage (nearest integer,
halves rounded up, 0 when `total = 0`), except that the four exact halves of
`halvesRoundedDown` are rounded down. -/
def amendedPercent (part total : ℕ) : ℤ :=
  if total = 0 then 0
  else if halvesRoundedDown.any fun n => decide (200 * part = (2 * n + 1) * total) then
    specPercent part total - 1
  else specPercent part total

end Dashboard

open JSNumber Dashboard

namespace JSNumber

theorem log2Fuel_spec (fuel : ℕ) : ∀ n : ℕ, n ≠ 0 → n ≤ fuel →
    2 ^ log2Fuel fuel n ≤ n ∧ n < 2 ^ (log2Fuel fuel n + 1) := by
  induction fuel with
  | zero => intro n h0 h; omega
  | succ f ih =>
    intro n h0 h
    unfold log2Fuel
    by_cases h2 : n < 2
    · simp only [h2, if_true]
      constructor
      · simp; omega
      · simp; omega
    · simp only [h2, if_false]
      have hn : n / 2 ≠ 0 := by omega
      have hle : n / 2 ≤ f := by omega
      obtain ⟨h1, h3⟩ := ih (n / 2) hn hle
      constructor
      · rw [pow_succ]; omega
      · rw [pow_succ]; omega

theorem natLog2_spec (n : ℕ) (h : n ≠ 0) :
    2 ^ natLog2 n ≤ n ∧ n < 2 ^ (natLog2 n + 1) :=
  log2Fuel_spec n n h le_rfl

theorem ilog2_spec (q : ℚ) (hq : q ≠ 0) :
    (2 : ℚ) ^ ilog2 q ≤ |q| ∧ |q| < (2 : ℚ) ^ (ilog2 q + 1) := by
  have hnum : q.num.natAbs ≠ 0 := by
    simpa [Int.natAbs_eq_zero] using hq
  have hden : q.den ≠ 0 := q.den_nz
  obtain ⟨hn1, hn2⟩ := natLog2_spec _ hnum
  obtain ⟨hd1, hd2⟩ := natLog2_spec _ hden
  have habs : |q| = (q.num.natAbs : ℚ) / (q.den : ℚ) := by
    conv_lhs => rw [← Rat.num_div_den q]
    rw [abs_div, Nat.abs_cast, Nat.cast_natAbs, Int.cast_abs]
  have hdpos : (0 : ℚ) < q.den := by exact_mod_cast Nat.pos_of_ne_zero hden
  set a := natLog2 q.num.natAbs with ha
  set b := natLog2 q.den with hb
  have hn1q : (2 : ℚ) ^ a ≤ (q.num.natAbs : ℚ) := by exact_mod_cast hn1
  have hn2q : (q.num.natAbs : ℚ) < (2 : ℚ) ^ (a + 1) := by exact_mod_cast hn2
  have hd1q : (2 : ℚ) ^ b ≤ (q.den : ℚ) := by exact_mod_cast hd1
  have hd2q : (q.den : ℚ) < (2 : ℚ) ^ (b + 1) := by exact_mod_cast hd2
  have h2 : (0 : ℚ) < 2 := by norm_num
  have hk1 : (2 : ℚ) ^ ((a : ℤ) - b - 1) < |q| := by
    rw [habs, lt_div_iff₀ hdpos]
    have e : (2 : ℚ) ^ ((a : ℤ) - b - 1) = (2 : ℚ) ^ a / (2 : ℚ) ^ (b + 1) := by
      rw [show (a : ℤ) - b - 1 = (a : ℤ) - ((b + 1 : ℕ) : ℤ) by push_cast; ring]
      rw [zpow_sub₀ (by norm_num : (2 : ℚ) ≠ 0), zpow_natCast, zpow_natCast]
    rw [e, div_mul_eq_mul_div, div_lt_iff₀ (by positivity)]
    calc (2 : ℚ) ^ a * q.den < (2 : ℚ) ^ a * (2 : ℚ) ^ (b + 1) := by
          apply mul_lt_mul_of_pos_left hd2q (by positivity)
      _ ≤ q.num.natAbs * (2 : ℚ) ^ (b + 1) := by
          apply mul_le_mul_of_nonneg_right hn1q (by positivity)
  have hk2 : |q| < (2 : ℚ) ^ ((a : ℤ) - b + 1) := by
    rw [habs, div_lt_iff₀ hdpos]
    have e : (2 : ℚ) ^ ((a : ℤ) - b + 1) = (2 : ℚ) ^ (a + 1) / (2 : ℚ) ^ b := by
      rw [show (a : ℤ) - b + 1 = ((a + 1 : ℕ) : ℤ) - (b : ℤ) by push_cast; ring]
      rw [zpow_sub₀ (by norm_num : (2 : ℚ) ≠ 0), zpow_natCast, zpow_natCast]
    rw [e, div_mul_eq_mul_div, lt_div_iff₀ (by positivity)]
    calc (q.num.natAbs : ℚ) * (2 : ℚ) ^ b ≤ q.num.natAbs * q.den := by
          apply mul_le_mul_of_nonneg_left hd1q (by positivity)
      _ < (2 : ℚ) ^ (a + 1) * q.den := by
          apply mul_lt_mul_of_pos_right hn2q hdpos
  unfold ilog2
  simp only [← ha, ← hb]
  by_cases hc : (2 : ℚ) ^ ((a : ℤ) - b) ≤ |q|
  · rw [if_pos hc]
    exact ⟨hc, hk2⟩
  · rw [if_neg hc]
    refine ⟨le_of_lt hk1, ?_⟩
    rw [sub_add_cancel]
    exact lt_of_not_le hc

end JSNumber

namespace JSNumber

theorem roundHalfEven_cases (x : ℚ) :
    (roundHalfEven x = ⌊x⌋ ∧ x - ⌊x⌋ ≤ 1 / 2) ∨
    (roundHalfEven x = ⌊x⌋ + 1 ∧ 1 / 2 ≤ x - ⌊x⌋) := by
  unfold roundHalfEven
  by_cases h1 : x - (⌊x⌋ : ℚ) < 1 / 2
  · left; simp only [h1, if_true]; exact ⟨trivial, le_of_lt h1⟩
  · by_cases h2 : 1 / 2 < x - (⌊x⌋ : ℚ)
    · right; simp only [h1, h2, if_true, if_false]; exact ⟨trivial, le_of_lt h2⟩
    · have he : x - (⌊x⌋ : ℚ) = 1 / 2 := le_antisymm (not_lt.mp h2) (not_lt.mp h1)
      by_cases h3 : ⌊x⌋ % 2 = 0
      · left; simp only [h1, h2, h3, if_true, if_false]; exact ⟨trivial, le_of_eq he⟩
      · right; simp only [h1, h2, h3, if_false]; exact ⟨trivial, le_of_eq he.symm⟩

theorem roundHalfEven_err (x : ℚ) : |(roundHalfEven x : ℚ) - x| ≤ 1 / 2 := by
  have hf := Int.floor_le x
  have hl := Int.lt_floor_add_one x
  rcases roundHalfEven_cases x with ⟨h, hr⟩ | ⟨h, hr⟩
  · rw [h, abs_le]; constructor <;> linarith
  · rw [h, abs_le]; push_cast; constructor <;> linarith

theorem roundHalfEven_intCast (n : ℤ) : roundHalfEven (n : ℚ) = n := by
  unfold roundHalfEven
  simp

theorem roundHalfEven_mono {x y : ℚ} (h : x ≤ y) : roundHalfEven x ≤ roundHalfEven y := by
  have hfl : ⌊x⌋ ≤ ⌊y⌋ := Int.floor_le_floor h
  rcases lt_or_eq_of_le hfl with hlt | heq
  · have hx : roundHalfEven x ≤ ⌊x⌋ + 1 := by
      rcases roundHalfEven_cases x with ⟨h1, _⟩ | ⟨h1, _⟩ <;> omega
    have hy : ⌊y⌋ ≤ roundHalfEven y := by
      rcases roundHalfEven_cases y with ⟨h1, _⟩ | ⟨h1, _⟩ <;> omega
    omega
  · unfold roundHalfEven
    simp only [← heq]
    by_cases h1 : x - (⌊x⌋ : ℚ) < 1 / 2
    · simp only [h1, if_true]
      split_ifs <;> omega
    · have h1y : ¬ (y - (⌊x⌋ : ℚ) < 1 / 2) := by
        intro hc; apply h1; linarith
      simp only [h1, h1y, if_false]
      by_cases h2 : 1 / 2 < x - (⌊x⌋ : ℚ)
      · have h2y : 1 / 2 < y - (⌊x⌋ : ℚ) := by linarith
        simp only [h2, h2y, if_true]
        exact le_refl _
      · simp only [h2, if_false]
        split_ifs <;> omega

theorem fl_zero : fl 0 = 0 := by simp [fl]

theorem fl_eq (q : ℚ) (hq : q ≠ 0) :
    fl q = (roundHalfEven (q / (2 : ℚ) ^ ulpExp q) : ℚ) * (2 : ℚ) ^ ulpExp q := by
  simp [fl, hq]

/-- Rounding error of `fl` below a power of two. -/
theorem fl_err_lt (q : ℚ) (k : ℤ) (hk : -1021 ≤ k) (h : |q| < (2 : ℚ) ^ k) :
    |fl q - q| ≤ (2 : ℚ) ^ (k - 54) := by
  by_cases hq : q = 0
  · subst hq; rw [fl_zero]; simp; positivity
  · rw [fl_eq q hq]
    set e := ulpExp q with he
    have hpos : (0 : ℚ) < (2 : ℚ) ^ e := by positivity
    have hle : e ≤ k - 53 := by
      have h1 := (ilog2_spec q hq).1
      have h2 : (2 : ℚ) ^ ilog2 q < (2 : ℚ) ^ k := lt_of_le_of_lt h1 h
      have h3 : ilog2 q < k := (zpow_lt_zpow_iff_right₀ (by norm_num : (1 : ℚ) < 2)).mp h2
      rw [he]; unfold ulpExp
      apply max_le <;> omega
    have hr := roundHalfEven_err (q / (2 : ℚ) ^ e)
    have hid : (roundHalfEven (q / (2 : ℚ) ^ e) : ℚ) * (2 : ℚ) ^ e - q
        = ((roundHalfEven (q / (2 : ℚ) ^ e) : ℚ) - q / (2 : ℚ) ^ e) * (2 : ℚ) ^ e := by
      field_simp
    rw [hid, abs_mul, abs_of_pos hpos]
    calc |(roundHalfEven (q / (2 : ℚ) ^ e) : ℚ) - q / (2 : ℚ) ^ e| * (2 : ℚ) ^ e
        ≤ 1 / 2 * (2 : ℚ) ^ e := mul_le_mul_of_nonneg_right hr (le_of_lt hpos)
      _ = (2 : ℚ) ^ (e - 1) := by
          rw [zpow_sub₀ (by norm_num : (2 : ℚ) ≠ 0)]; simp; ring
      _ ≤ (2 : ℚ) ^ (k - 54) := by
          apply zpow_le_zpow_right₀ (by norm_num) (by omega)

theorem fl_nonneg {q : ℚ} (h : 0 ≤ q) : 0 ≤ fl q := by
  by_cases hq : q = 0
  · subst hq; rw [fl_zero]
  · rw [fl_eq q hq]
    have hpos : (0 : ℚ) < (2 : ℚ) ^ ulpExp q := by positivity
    have h0 : (0 : ℚ) ≤ q / (2 : ℚ) ^ ulpExp q := div_nonneg h (le_of_lt hpos)
    have := roundHalfEven_mono h0
    rw [show ((0 : ℚ)) = ((0 : ℤ) : ℚ) by simp, roundHalfEven_intCast] at this
    have h' : (0 : ℚ) ≤ (roundHalfEven (q / (2 : ℚ) ^ ulpExp q) : ℚ) := by exact_mod_cast this
    exact mul_nonneg h' (le_of_lt hpos)

end JSNumber

namespace JSNumber

/-- Error of the two roundings in `(a / b) * K` for a quotient in `[0, 1)`. -/
theorem mul_div_err_lt (q K : ℚ) (k : ℤ) (hq0 : 0 ≤ q) (hq1 : q < 1) (hK : 0 ≤ K)
    (hKk : K * (1 + (2 : ℚ) ^ (-54 : ℤ)) < (2 : ℚ) ^ k) (hk : -1021 ≤ k) :
    |fl (fl q * K) - q * K| ≤ (2 : ℚ) ^ (k - 54) + K * (2 : ℚ) ^ (-54 : ℤ) := by
  have h1 : |fl q - q| ≤ (2 : ℚ) ^ (-54 : ℤ) := by
    have := fl_err_lt q 0 (by norm_num) (by rw [abs_of_nonneg hq0]; simpa using hq1)
    simpa using this
  have hfl0 : 0 ≤ fl q := fl_nonneg hq0
  have hfl1 : fl q ≤ 1 + (2 : ℚ) ^ (-54 : ℤ) := by
    have := (abs_le.mp h1).2; linarith
  have h2 : |fl (fl q * K) - fl q * K| ≤ (2 : ℚ) ^ (k - 54) := by
    apply fl_err_lt _ k hk
    rw [abs_of_nonneg (mul_nonneg hfl0 hK)]
    calc fl q * K ≤ (1 + (2 : ℚ) ^ (-54 : ℤ)) * K := mul_le_mul_of_nonneg_right hfl1 hK
      _ = K * (1 + (2 : ℚ) ^ (-54 : ℤ)) := by ring
      _ < _ := hKk
  have h3 : |fl q * K - q * K| ≤ K * (2 : ℚ) ^ (-54 : ℤ) := by
    rw [← sub_mul, abs_mul, abs_of_nonneg hK, mul_comm]
    exact mul_le_mul_of_nonneg_left h1 hK
  calc |fl (fl q * K) - q * K|
      = |(fl (fl q * K) - fl q * K) + (fl q * K - q * K)| := by ring_nf
    _ ≤ |fl (fl q * K) - fl q * K| + |fl q * K - q * K| := abs_add _ _
    _ ≤ _ := add_le_add h2 h3

end JSNumber

namespace Dashboard

theorem percentOf_zero_total (part : ℚ) : percentOf part 0 = 0 := by
  simp [percentOf]

/-- The computed percentage depends on the quotient `part / total` only. -/
theorem percentOf_ratio (a b c d : ℚ) (hb : 0 < b) (hd : 0 < d) (h : a / b = c / d) :
    percentOf a b = percentOf c d := by
  simp only [percentOf, JSNumber.div, gt_iff_lt, hb, hd, if_true, h]

theorem percentOf_full : percentOf 1 1 = 100 := by decide!

/-- The percentage computed by `updateStats` is a nearest integer to the exact
percentage: it differs from `100 * G / T` by at most one half. -/
theorem percentOf_near (G T : ℕ) (hT : 0 < T) (hT45 : T < 2 ^ 45) (hG : G ≤ T) :
    (2 * percentOf G T - 1) * T ≤ 200 * G ∧ 200 * (G : ℤ) ≤ (2 * percentOf G T + 1) * T := by
  have hTq : (0 : ℚ) < (T : ℚ) := by exact_mod_cast hT
  rcases Nat.eq_or_lt_of_le hG with hGT | hGT
  · subst hGT
    have h100 : percentOf (G : ℚ) (G : ℚ) = 100 := by
      rw [percentOf_ratio (G : ℚ) (G : ℚ) 1 1 hTq one_pos (by field_simp), percentOf_full]
    rw [h100]
    constructor <;> nlinarith
  have hT45q : (T : ℚ) < (2 : ℚ) ^ (45 : ℕ) := by exact_mod_cast hT45
  set q : ℚ := (G : ℚ) / (T : ℚ) with hq
  have hq0 : 0 ≤ q := div_nonneg (by positivity) (le_of_lt hTq)
  have hq1 : q < 1 := by
    rw [hq, div_lt_one hTq]; exact_mod_cast hGT
  have hqT : q * T = G := by rw [hq]; field_simp
  have herr := mul_div_err_lt q 100 7 hq0 hq1 (by norm_num) (by norm_num) (by norm_num)
  set b : ℚ := fl (fl q * 100) with hb
  have hp : percentOf (G : ℚ) (T : ℚ) = ⌊b + 1 / 2⌋ := by
    simp only [percentOf, hTq, gt_iff_lt, if_true, Math.round, JSNumber.mul, JSNumber.div]
  set p : ℤ := percentOf (G : ℚ) (T : ℚ) with hpdef
  have hfl1 : (p : ℚ) ≤ b + 1 / 2 := by rw [hp]; exact Int.floor_le _
  have hfl2 : b + 1 / 2 < (p : ℚ) + 1 := by rw [hp]; exact Int.lt_floor_add_one _
  have hδ : (2 : ℚ) ^ (7 - 54 : ℤ) + 100 * (2 : ℚ) ^ (-54 : ℤ) < 1 / (2 : ℚ) ^ (46 : ℕ) := by
    norm_num
  obtain ⟨he1, he2⟩ := abs_le.mp herr
  have h246 : (0 : ℚ) < (2 : ℚ) ^ (46 : ℕ) := by positivity
  -- 2 * T * δ < 1
  have hTδ : 2 * (T : ℚ) * (1 / (2 : ℚ) ^ (46 : ℕ)) < 1 := by
    rw [mul_one_div, div_lt_one h246]
    calc 2 * (T : ℚ) < 2 * (2 : ℚ) ^ (45 : ℕ) := by linarith
      _ = (2 : ℚ) ^ (46 : ℕ) := by norm_num
  have e1 : -(1 / (2 : ℚ) ^ (46 : ℕ)) ≤ b - q * 100 := by
    have := neg_le_neg (le_of_lt hδ); exact le_trans this he1
  have e2 : b - q * 100 ≤ 1 / (2 : ℚ) ^ (46 : ℕ) := le_trans he2 (le_of_lt hδ)
  clear hδ he1 he2 herr h246
  generalize 1 / (2 : ℚ) ^ (46 : ℕ) = d at hTδ e1 e2
  constructor
  · by_contra hc
    push_neg at hc
    have hc' : 200 * (G : ℤ) + 1 ≤ (2 * p - 1) * T := by omega
    have hcq : 200 * (G : ℚ) + 1 ≤ (2 * (p : ℚ) - 1) * T := by exact_mod_cast hc'
    have hb1 : b * T ≤ (q * 100 + d) * T := by
      apply mul_le_mul_of_nonneg_right _ (le_of_lt hTq); linarith
    have hb2 : ((p : ℚ) - 1 / 2) * T ≤ b * T := by
      apply mul_le_mul_of_nonneg_right _ (le_of_lt hTq); linarith
    nlinarith
  · by_contra hc
    push_neg at hc
    have hc' : (2 * p + 1) * T + 1 ≤ 200 * (G : ℤ) := by omega
    have hcq : (2 * (p : ℚ) + 1) * T + 1 ≤ 200 * (G : ℚ) := by exact_mod_cast hc'
    have hb1 : (q * 100 - d) * T ≤ b * T := by
      apply mul_le_mul_of_nonneg_right _ (le_of_lt hTq); linarith
    have hb2 : b * T ≤ ((p : ℚ) + 1 / 2) * T := by
      apply mul_le_mul_of_nonneg_right _ (le_of_lt hTq); linarith
    nlinarith

theorem specPercent_bounds (G T : ℕ) (hT : 0 < T) :
    (2 * specPercent G T - 1) * T ≤ 200 * G ∧ 200 * (G : ℤ) < (2 * specPercent G T + 1) * T := by
  have hTq : (0 : ℚ) < (T : ℚ) := by exact_mod_cast hT
  have hs : specPercent G T = ⌊(G : ℚ) / (T : ℚ) * 100 + 1 / 2⌋ := by
    simp [specPercent, Nat.pos_iff_ne_zero.mp hT]
  set sp := specPercent G T
  have h1 : (sp : ℚ) ≤ (G : ℚ) / (T : ℚ) * 100 + 1 / 2 := by rw [hs]; exact Int.floor_le _
  have h2 : (G : ℚ) / (T : ℚ) * 100 + 1 / 2 < (sp : ℚ) + 1 := by
    rw [hs]; exact Int.lt_floor_add_one _
  have hqT : (G : ℚ) / (T : ℚ) * T = G := by field_simp
  constructor
  · have : (2 * (sp : ℚ) - 1) * T ≤ 200 * (G : ℚ) := by
      have := mul_le_mul_of_nonneg_right h1 (le_of_lt hTq)
      nlinarith
    exact_mod_cast this
  · have : 200 * (G : ℚ) < (2 * (sp : ℚ) + 1) * T := by
      have := mul_lt_mul_of_pos_right h2 hTq
      nlinarith
    exact_mod_cast this

/-- The computed percentage is the exactly rounded one, except possibly at an
exact half, where it may be the integer below. -/
theorem percentOf_vs_spec (G T : ℕ) (hT : 0 < T) (hT45 : T < 2 ^ 45) (hG : G ≤ T) :
    percentOf G T = specPercent G T ∨
    (percentOf G T + 1 = specPercent G T ∧ 200 * (G : ℤ) = (2 * percentOf G T + 1) * T) := by
  obtain ⟨h1, h2⟩ := percentOf_near G T hT hT45 hG
  obtain ⟨h3, h4⟩ := specPercent_bounds G T hT
  have hTz : (0 : ℤ) < (T : ℤ) := by exact_mod_cast hT
  set p := percentOf (G : ℚ) (T : ℚ)
  set sp := specPercent G T
  -- p ≤ sp
  have hle : p ≤ sp := by
    by_contra hc
    push_neg at hc
    have : (2 * sp + 1) * T ≤ (2 * p - 1) * T := by
      apply mul_le_mul_of_nonneg_right _ (le_of_lt hTz); omega
    omega
  have hge : sp ≤ p + 1 := by
    by_contra hc
    push_neg at hc
    have : (2 * p + 1) * T < (2 * sp - 1) * T := by
      apply mul_lt_mul_of_pos_right _ hTz; omega
    omega
  rcases eq_or_lt_of_le hle with h | h
  · left; exact h
  · right
    have hsp : sp = p + 1 := by omega
    refine ⟨hsp.symm, ?_⟩
    rw [hsp] at h3
    have : (2 * (p + 1) - 1) * (T : ℤ) = (2 * p + 1) * T := by ring
    rw [this] at h3
    omega

/-- The specification's percentage depends on the quotient only. -/
theorem specPercent_ratio (G T n : ℕ) (hT : 0 < T) (h : 200 * G = (2 * n + 1) * T) :
    specPercent G T = n + 1 := by
  have hTq : (0 : ℚ) < (T : ℚ) := by exact_mod_cast hT
  have hq : (G : ℚ) / (T : ℚ) * 100 = (n : ℚ) + 1 / 2 := by
    have h2 : 200 * (G : ℚ) = (2 * (n : ℚ) + 1) * T := by exact_mod_cast h
    field_simp
    linarith
  simp only [specPercent, Nat.pos_iff_ne_zero.mp hT, if_false, hq]
  have e : (n : ℚ) + 1 / 2 + 1 / 2 = ((n + 1 : ℤ) : ℚ) := by push_cast; ring
  rw [e, Int.floor_intCast]

/-- How the script rounds each of the hundred exact halves `n + 1/2`. -/
theorem percentOf_halves :
    ∀ n ∈ List.range 100,
      percentOf ((2 * n + 1 : ℕ) : ℚ) 200
        = if n ∈ halvesRoundedDown then (n : ℤ) else (n : ℤ) + 1 := by
  decide!

theorem percentOf_half (G T n : ℕ) (hT : 0 < T) (hG : G ≤ T)
    (h : 200 * G = (2 * n + 1) * T) :
    percentOf G T = if n ∈ halvesRoundedDown then (n : ℤ) else (n : ℤ) + 1 := by
  have hTq : (0 : ℚ) < (T : ℚ) := by exact_mod_cast hT
  have hn : n < 100 := by
    by_contra hc
    push_neg at hc
    have : 201 * T ≤ (2 * n + 1) * T := Nat.mul_le_mul_right T (by omega)
    nlinarith
  rw [← percentOf_halves n (List.mem_range.2 hn)]
  apply percentOf_ratio _ _ _ _ hTq (by norm_num)
  have h2 : 200 * (G : ℚ) = (2 * (n : ℚ) + 1) * T := by exact_mod_cast h
  field_simp
  linarith

/-- The percentage that the script computes is the amended percentage. -/
theorem percentOf_eq_amended (G T : ℕ) (hT45 : T < 2 ^ 45) (hG : G ≤ T) :
    percentOf G T = amendedPercent G T := by
  rcases Nat.eq_zero_or_pos T with h0 | hT
  · subst h0
    simp [percentOf, amendedPercent]
  unfold amendedPercent
  rw [if_neg (Nat.pos_iff_ne_zero.mp hT)]
  split_ifs with hex
  · -- one of the four halves that are rounded down
    rw [List.any_eq_true] at hex
    obtain ⟨n, hn, hdec⟩ := hex
    have h := of_decide_eq_true hdec
    rw [percentOf_half G T n hT hG h, if_pos hn, specPercent_ratio G T n hT h]
    ring
  · rcases percentOf_vs_spec G T hT hT45 hG with h | ⟨h1, h2⟩
    · exact h
    · exfalso
      apply hex
      have hTz : (0 : ℤ) < (T : ℤ) := by exact_mod_cast hT
      have hp0 : 0 ≤ percentOf (G : ℚ) (T : ℚ) := by
        by_contra hc
        push_neg at hc
        have : (2 * percentOf (G : ℚ) (T : ℚ) + 1) * (T : ℤ) < 0 :=
          mul_neg_of_neg_of_pos (by omega) hTz
        have hG0 : (0 : ℤ) ≤ (G : ℤ) := Int.natCast_nonneg G
        omega
      obtain ⟨n, hn⟩ := Int.eq_ofNat_of_zero_le hp0
      have h3 : 200 * G = (2 * n + 1) * T := by
        rw [hn] at h2
        exact_mod_cast h2
      have h4 := percentOf_half G T n hT hG h3
      rw [hn] at h4
      have hmem : n ∈ halvesRoundedDown := by
        by_contra hc
        rw [if_neg hc] at h4
        omega
      rw [List.any_eq_true]
      exact ⟨n, hmem, decide_eq_true h3⟩

end Dashboard

namespace Dashboard

/-! ### The object `counts` of `updateHeatmap` -/

theorem lookup_cons_ite (k a : BucketKey) (b : ℕ) (rest : List (BucketKey × ℕ)) :
    ((a, b) :: rest).lookup k = if k = a then some b else rest.lookup k := by
  rw [List.lookup_cons]
  by_cases h : k = a
  · subst h; simp
  · have h2 : (k == a) = false := beq_eq_false_iff_ne.2 h
    rw [h2, if_neg h]

theorem lookup_map_set (key k : BucketKey) (c : ℕ) (counts : List (BucketKey × ℕ)) :
    (counts.map fun e => if e.1 = key then (e.1, c) else e).lookup k
      = if k = key then (counts.lookup k).map (fun _ => c) else counts.lookup k := by
  induction counts with
  | nil => simp
  | cons e rest ih =>
    obtain ⟨a, b⟩ := e
    rw [List.map_cons, lookup_cons_ite]
    by_cases ha : a = key
    · subst ha
      rw [if_pos rfl, lookup_cons_ite, ih]
      by_cases hk : k = a <;> simp [hk]
    · rw [if_neg ha, lookup_cons_ite, ih]
      by_cases hk : k = a
      · subst hk; simp [ha]
      · simp [hk]

theorem lookup_increment (counts : List (BucketKey × ℕ)) (key k : BucketKey) :
    ((increment counts key).lookup k).getD 0
      = (counts.lookup k).getD 0 + if k = key then 1 else 0 := by
  unfold increment
  cases h : counts.lookup key with
  | some c =>
    simp only
    rw [lookup_map_set]
    by_cases hk : k = key
    · subst hk; simp [h]
    · simp [hk]
  | none =>
    simp only
    rw [List.lookup_append]
    by_cases hk : k = key
    · subst hk; simp [h, lookup_cons_ite]
    · cases h2 : counts.lookup k <;> simp [hk, lookup_cons_ite]

/-- After the `forEach` loop, the count stored under a key is the number of
logs of the list that have this key. -/
theorem lookup_foldl_increment (env : Env) (logs : List LogEntry) :
    ∀ (init : List (BucketKey × ℕ)) (k : BucketKey),
    ((logs.foldl (fun counts log => increment counts (bucketKey env log)) init).lookup k).getD 0
      = (init.lookup k).getD 0 + bucketCount env logs k := by
  induction logs with
  | nil => intro init k; simp [bucketCount]
  | cons log rest ih =>
    intro init k
    rw [List.foldl_cons, ih, lookup_increment]
    unfold bucketCount
    by_cases hk : bucketKey env log = k
    · subst hk; simp [List.filter_cons]; omega
    · have hk2 : ¬ k = bucketKey env log := fun h => hk h.symm
      simp [List.filter_cons, hk, hk2]

theorem lookup_buildCounts (env : Env) (logs : List LogEntry) (k : BucketKey) :
    ((buildCounts env logs).lookup k).getD 0 = bucketCount env logs k := by
  unfold buildCounts
  rw [lookup_foldl_increment]
  simp

theorem lookup_eq_none_of_not_mem (counts : List (BucketKey × ℕ)) (key : BucketKey) :
    counts.lookup key = none ↔ key ∉ counts.map Prod.fst := by
  induction counts with
  | nil => simp
  | cons e rest ih =>
    obtain ⟨a, b⟩ := e
    by_cases hk : key = a
    · subst hk; simp [lookup_cons_ite]
    · simp [lookup_cons_ite, hk, ih]

theorem map_set_of_not_mem (key : BucketKey) (c : ℕ) (counts : List (BucketKey × ℕ))
    (h : key ∉ counts.map Prod.fst) :
    (counts.map fun e => if e.1 = key then (e.1, c) else e) = counts := by
  induction counts with
  | nil => rfl
  | cons e rest ih =>
    simp only [List.map_cons, List.mem_cons, not_or] at h
    rw [List.map_cons, ih h.2, if_neg (fun h2 => h.1 h2.symm)]

theorem keys_increment (counts : List (BucketKey × ℕ)) (key : BucketKey) :
    (increment counts key).map Prod.fst
      = if key ∈ counts.map Prod.fst then counts.map Prod.fst
        else counts.map Prod.fst ++ [key] := by
  unfold increment
  cases h : counts.lookup key with
  | some c =>
    have hm : key ∈ counts.map Prod.fst := by
      by_contra hc
      rw [(lookup_eq_none_of_not_mem counts key).2 hc] at h
      cases h
    simp only
    rw [if_pos hm, List.map_map]
    apply List.map_congr_left
    intro e _
    by_cases he : e.1 = key <;> simp [he]
  | none =>
    have hm : key ∉ counts.map Prod.fst := (lookup_eq_none_of_not_mem counts key).1 h
    simp only
    rw [if_neg hm, List.map_append]
    rfl

theorem nodup_keys_increment (counts : List (BucketKey × ℕ)) (key : BucketKey)
    (h : (counts.map Prod.fst).Nodup) : ((increment counts key).map Prod.fst).Nodup := by
  rw [keys_increment]
  split_ifs with hm
  · exact h
  · rw [List.nodup_append]
    refine ⟨h, List.nodup_singleton _, ?_⟩
    intro a ha hb
    rw [List.mem_singleton] at hb
    subst hb
    exact hm ha

theorem sum_map_set (key : BucketKey) (c : ℕ) :
    ∀ counts : List (BucketKey × ℕ), (counts.map Prod.fst).Nodup →
      counts.lookup key = some c →
      ((counts.map fun e => if e.1 = key then (e.1, c + 1) else e).map Prod.snd).sum
        = (counts.map Prod.snd).sum + 1 := by
  intro counts
  induction counts with
  | nil => intro _ h; simp at h
  | cons e rest ih =>
    obtain ⟨a, b⟩ := e
    intro hnd hl
    rw [List.map_cons, List.nodup_cons] at hnd
    by_cases ha : a = key
    · subst ha
      have hb : b = c := by simpa [lookup_cons_ite] using hl
      subst hb
      rw [List.map_cons, map_set_of_not_mem a (b + 1) rest hnd.1]
      simp
      omega
    · have hka : ¬ key = a := fun h => ha h.symm
      have hl2 : rest.lookup key = some c := by simpa [lookup_cons_ite, hka] using hl
      have := ih hnd.2 hl2
      simp only [List.map_cons, List.sum_cons, if_neg ha]
      rw [this]
      omega

theorem sum_increment (counts : List (BucketKey × ℕ)) (key : BucketKey)
    (h : (counts.map Prod.fst).Nodup) :
    ((increment counts key).map Prod.snd).sum = (counts.map Prod.snd).sum + 1 := by
  unfold increment
  cases hl : counts.lookup key with
  | some c => exact sum_map_set key c counts h hl
  | none => simp

theorem foldl_increment_spec (env : Env) (logs : List LogEntry) :
    ∀ init : List (BucketKey × ℕ), (init.map Prod.fst).Nodup →
      ((logs.foldl (fun counts log => increment counts (bucketKey env log)) init).map
          Prod.fst).Nodup ∧
      ((logs.foldl (fun counts log => increment counts (bucketKey env log)) init).map
          Prod.snd).sum = (init.map Prod.snd).sum + logs.length := by
  induction logs with
  | nil => intro init h; exact ⟨h, by simp⟩
  | cons log rest ih =>
    intro init h
    rw [List.foldl_cons]
    have h1 := nodup_keys_increment init (bucketKey env log) h
    obtain ⟨h2, h3⟩ := ih _ h1
    refine ⟨h2, ?_⟩
    rw [h3, sum_increment init _ h, List.length_cons]
    omega

theorem nodup_keys_buildCounts (env : Env) (logs : List LogEntry) :
    ((buildCounts env logs).map Prod.fst).Nodup :=
  (foldl_increment_spec env logs [] (by simp)).1

theorem sum_buildCounts (env : Env) (logs : List LogEntry) :
    ((buildCounts env logs).map Prod.snd).sum = logs.length := by
  have := (foldl_increment_spec env logs [] (by simp)).2
  simpa [buildCounts] using this

end Dashboard

namespace Dashboard

/-! ### Frame of `animateNumber` and of `updateSecurityDashboard` -/

end Dashboard

namespace Dashboard

/-! ### The gauge offset -/

end Dashboard

namespace Dashboard

/-! ### The timers -/

end Dashboard

namespace Dashboard

/-! ### Every handler keeps the timer invariant -/

end Dashboard

namespace JSNumber

end JSNumber

namespace Dashboard

/-! ### The number animation -/

end Dashboard

namespace Dashboard

/-! ### The interval callback of `animateNumber` -/

end Dashboard

namespace Dashboard

/-! ### Joining and splitting -/

theorem splitChars_ne_nil (sep : Char) (cs : List Char) : splitChars sep cs ≠ [] := by
  induction cs with
  | nil => simp [splitChars]
  | cons ch rest ih =>
    unfold splitChars
    split_ifs
    · simp
    · cases h : splitChars sep rest with
      | nil => simp
      | cons f fs => simp

end Dashboard

namespace Dashboard

/-! ### The level of a heatmap cell -/

end Dashboard

namespace Dashboard

/-! ### Painting the cells -/

end Dashboard

namespace Dashboard

theorem updateStats_grantedPercent (stats : StatsSummary) (s : State) :
    (updateStats stats s).grantedPercent = grantedPercentText stats := rfl

theorem updateStats_deniedPercent (stats : StatsSummary) (s : State) :
    (updateStats stats s).deniedPercent = deniedPercentText stats := rfl

theorem grantedPercentText_mk (t g d : ℚ) (ts : Option (List TimePoint)) :
    grantedPercentText ⟨some t, some g, some d, ts⟩ = toString (percentOf g t) ++ "%" := rfl

theorem deniedPercentText_mk (t g d : ℚ) (ts : Option (List TimePoint)) :
    deniedPercentText ⟨some t, some g, some d, ts⟩ = toString (percentOf d t) ++ "%" := rfl

theorem percentText_example (ts : Option (List TimePoint)) :
    grantedPercentText ⟨some 10, some 7, some 3, ts⟩ = "70%" ∧
    deniedPercentText ⟨some 10, some 7, some 3, ts⟩ = "30%" := by
  have h7 : percentOf 7 10 = 70 := by decide!
  have h3 : percentOf 3 10 = 30 := by decide!
  constructor
  · rw [grantedPercentText_mk, h7]; decide
  · rw [deniedPercentText_mk, h3]; decide

/-- C1 (as stated, refuted).  For `stats = {total: 40, granted: 23, denied: 17}`
the exact percentage of granted is 57.5, which the claim rounds up to 58, but
`updateStats` displays "57%".  In binary64 arithmetic `23 / 40` is
0.57499999999999995559107901499373838305473327636718750 and its product with
100 rounds to 57.49999999999999289457264239899814128875732421875, which
`Math.round` takes to 57.  For very large counts the two roundings also move a
value that is not an exact half across one: for total 43279973994241 and
granted 34840379065364 the exact percentage is below 80.5 and rounds to 80,
but `updateStats` displays "81%". -/
theorem C1_percent_not_exactly_rounded :
    ((updateStats ⟨some 40, some 23, some 17, none⟩ samplePage).grantedPercent = "57%" ∧
      specPercent 23 40 = 58 ∧
      (updateStats ⟨some 40, some 23, some 17, none⟩ samplePage).grantedPercent
        ≠ toString (specPercent 23 40) ++ "%") ∧
    ((updateStats ⟨some 43279973994241, some 34840379065364, some 8439594928877, none⟩
        samplePage).grantedPercent = "81%" ∧
      specPercent 34840379065364 43279973994241 = 80 ∧
      (updateStats ⟨some 43279973994241, some 34840379065364, some 8439594928877, none⟩
        samplePage).grantedPercent
        ≠ toString (specPercent 34840379065364 43279973994241) ++ "%") := by
  have h1 : grantedPercentText ⟨some 40, some 23, some 17, none⟩ = "57%" := by decide!
  have h2 : specPercent 23 40 = 58 := by decide!
  have h3 : grantedPercentText
      ⟨some 43279973994241, some 34840379065364, some 8439594928877, none⟩ = "81%" := by
    decide!
  have h4 : specPercent 34840379065364 43279973994241 = 80 := by decide!
  rw [updateStats_grantedPercent, updateStats_grantedPercent, h1, h2, h3, h4]
  exact ⟨⟨rfl, rfl, by decide⟩, ⟨rfl, rfl, by decide⟩⟩

/-- C1 (amended).  For every total `T < 2^45` and all counts `G, D ≤ T`, the
percentage that `updateStats` displays for a count is the exact value of
`count / T * 100` rounded to the nearest integer with halves rounded up, and 0
when `T = 0`, with four exceptions: when the exact percentage is 14.5, 28.5,
56.5 or 57.5 the script displays 14, 28, 56 or 57 (`amendedPercent`).  The
stats `{total: 10, granted: 7, denied: 3}` give "70%" and "30%". -/
theorem C1_updateStats_percent (T G D : ℕ) (ts : Option (List TimePoint)) (s : State)
    (hT : T < 2 ^ 45) (hG : G ≤ T) (hD : D ≤ T) :
    (updateStats ⟨some T, some G, some D, ts⟩ s).grantedPercent
      = toString (amendedPercent G T) ++ "%" ∧
    (updateStats ⟨some T, some G, some D, ts⟩ s).deniedPercent
      = toString (amendedPercent D T) ++ "%" ∧
    (updateStats ⟨some 10, some 7, some 3, ts⟩ s).grantedPercent = "70%" ∧
    (updateStats ⟨some 10, some 7, some 3, ts⟩ s).deniedPercent = "30%" := by
  refine ⟨?_, ?_, ?_, ?_⟩
  · rw [updateStats_grantedPercent, grantedPercentText_mk, percentOf_eq_amended G T hT hG]
  · rw [updateStats_deniedPercent, deniedPercentText_mk, percentOf_eq_amended D T hT hD]
  · rw [updateStats_grantedPercent]; exact (percentText_example ts).1
  · rw [updateStats_deniedPercent]; exact (percentText_example ts).2

/-- C1 (amended), instance: total 200, granted 29, denied 171.  The exact
percentages are 14.5 and 85.5; the first is one of the four halves that are
rounded down, the second is rounded up. -/
theorem C1_updateStats_percent_witness :
    ((200 : ℕ) < 2 ^ 45 ∧ (29 : ℕ) ≤ 200 ∧ (171 : ℕ) ≤ 200) ∧
    (amendedPercent 29 200 = 14 ∧ amendedPercent 171 200 = 86) ∧
    (updateStats ⟨some (200 : ℕ), some (29 : ℕ), some (171 : ℕ), none⟩
        samplePage).grantedPercent = toString (amendedPercent 29 200) ++ "%" ∧
    (updateStats ⟨some (200 : ℕ), some (29 : ℕ), some (171 : ℕ), none⟩
        samplePage).deniedPercent = toString (amendedPercent 171 200) ++ "%" ∧
    (updateStats ⟨some 10, some 7, some 3, none⟩ samplePage).grantedPercent = "70%" ∧
    (updateStats ⟨some 10, some 7, some 3, none⟩ samplePage).deniedPercent = "30%" :=
  ⟨by norm_num, by decide!,
   C1_updateStats_percent 200 29 171 none samplePage (by norm_num) (by norm_num) (by norm_num)⟩

end Dashboard

namespace Dashboard

end Dashboard

namespace Dashboard

/-- C3.  For every list of logs, the counts that `updateHeatmap` builds sum to
the number of logs.  Each log increments exactly one bucket by 1: the bucket
keyed by its day index `(weekday + 6) % 7` and its local hour (one more bucket
collects the logs whose date is invalid), every other bucket keeps its count,
no key occurs twice, and the count stored under a key is the number of logs
of the list with that key. -/
theorem C3_bucket_counts_sum (env : Env) (logs : List LogEntry) :
    ((buildCounts env logs).map Prod.snd).sum = logs.length ∧
    ((buildCounts env logs).map Prod.fst).Nodup ∧
    (∀ key : BucketKey,
      ((buildCounts env logs).lookup key).getD 0 = bucketCount env logs key) ∧
    (∀ (log : LogEntry) (key : BucketKey),
      buildCounts env (logs ++ [log]) = increment (buildCounts env logs) (bucketKey env log) ∧
      ((buildCounts env (logs ++ [log])).lookup key).getD 0
        = ((buildCounts env logs).lookup key).getD 0
          + if key = bucketKey env log then 1 else 0) ∧
    (∀ log : LogEntry,
      bucketKey env log
        = (env.localDate log.time).map fun p => ((p.1.val + 6) % 7, p.2.val)) := by
  refine ⟨sum_buildCounts env logs, nodup_keys_buildCounts env logs,
    lookup_buildCounts env logs, ?_, ?_⟩
  · intro log key
    have h : buildCounts env (logs ++ [log])
        = increment (buildCounts env logs) (bucketKey env log) := by
      simp [buildCounts, List.foldl_append]
    exact ⟨h, by rw [h, lookup_increment]⟩
  · intro log
    unfold bucketKey
    cases env.localDate log.time with
    | none => rfl
    | some p => rfl

end Dashboard

namespace Dashboard

/-- C4.  When the trimmed username and the password do not both equal the
fixed credentials, `handleLogin` changes two things only: the password field
becomes empty and the inline error shows the literal message.  Everything
else is as before, in particular the username field, the stored session
flag, the two views, the logged-in flag and the timers (no refresh timer is
started, no request is issued). -/
theorem C4_handleLogin_failure (s : State)
    (h : ¬ (trim s.loginUsername = CREDENTIALS.1 ∧ s.loginPassword = CREDENTIALS.2)) :
    handleLogin s = { s with loginError := "❌ Identifiants incorrects", loginPassword := "" } ∧
    (handleLogin s).loginPassword = "" ∧
    (handleLogin s).loginError = "❌ Identifiants incorrects" ∧
    (handleLogin s).loginUsername = s.loginUsername ∧
    (handleLogin s).session = s.session ∧
    (handleLogin s).isLoggedIn = s.isLoggedIn ∧
    (handleLogin s).loginScreenHidden = s.loginScreenHidden ∧
    (handleLogin s).dashboardHidden = s.dashboardHidden ∧
    (handleLogin s).autoRefreshInterval = s.autoRefreshInterval ∧
    (handleLogin s).timers = s.timers ∧
    (handleLogin s).requests = s.requests := by
  have e : handleLogin s
      = { s with loginError := "❌ Identifiants incorrects", loginPassword := "" } := by
    unfold handleLogin
    simp only
    rw [if_neg h]
  rw [e]
  exact ⟨rfl, rfl, rfl, rfl, rfl, rfl, rfl, rfl, rfl, rfl, rfl⟩

/-- C4, instance: on the freshly loaded page the user types the right username
and a wrong password. -/
theorem C4_handleLogin_failure_witness :
    ¬ (trim " admin " = CREDENTIALS.1 ∧ "secret" = CREDENTIALS.2) ∧
    handleLogin { samplePage with loginUsername := " admin ", loginPassword := "secret" }
      = { samplePage with
          loginUsername := " admin "
          loginPassword := ""
          loginError := "❌ Identifiants incorrects" } :=
  ⟨fun hc => absurd hc.2 (by decide),
   (C4_handleLogin_failure
    { samplePage with loginUsername := " admin ", loginPassword := "secret" }
    (fun hc => absurd hc.2 (by decide))).1⟩

end Dashboard

namespace Dashboard

end Dashboard

namespace Dashboard

end Dashboard

namespace Dashboard

end Dashboard

namespace Dashboard

end Dashboard

namespace Dashboard

end Dashboard

namespace Dashboard

end Dashboard

namespace Dashboard

end Dashboard
